import Mathlib

/-!
# Configuration preparation of the IONOS Cloud builder

Shallow embedding of `builder/ionoscloud/config.go`: the `Config` record and
`Config.Prepare`, which decodes the raw template input, lets the communicator
prepare itself, fills environment fallbacks and hardcoded defaults, validates
the result and collects the validation errors.

The functions of other packages that `Prepare` calls (`config.Decode`,
`communicator.Config.Prepare`, `interpolate.Render`, `os.Getenv`) belong to the
Packer SDK and the Go runtime; they are the fields of `World`, and the theorems
hold for every choice of them.
-/

namespace Ionoscloud

/-! ## Data model -/

/-- Go `float32`, given by its IEEE-754 bit pattern (sign bit, 8 exponent bits,
23 mantissa bits). -/
abbrev Float32 := Fin 4294967296

/-- Go `x == 0` on a `float32`: true for `+0` and `-0`, the two patterns whose
low 31 bits are all zero, and false for every other pattern (NaN included). -/
def Float32.isZero (x : Float32) : Bool := x.val % 2147483648 == 0

/-- The `float32` constant `50` (`0x42480000`). -/
def Float32.fifty : Float32 := 1112014848

/-- Go `[]error` as returned by a callee: `none` is the nil slice, `some es` a
non-nil slice with elements `es`; errors are identified with their messages. -/
abbrev ErrorSlice := Option (List String)

/-- Go `len(es)`. -/
def ErrorSlice.len (es : ErrorSlice) : Nat := (es.getD []).length

/-- The elements of a slice, as spread by `es...`. -/
def ErrorSlice.elems (es : ErrorSlice) : List String := es.getD []

/-- The `interpolate.Context` kept in the configuration; `Prepare` only passes
it on. -/
abbrev Context := List (String × String)

/-- The embedded `common.PackerConfig`; `Prepare` never reads or writes it. -/
abbrev PackerConfig := List (String × String)

/-- The `communicator.Config` of the SDK: the two fields `Prepare` reads, and
the remaining settings. -/
structure CommConfig where
  SSHPassword : String
  SSHPrivateKeyFile : String
  settings : List (String × String)
deriving DecidableEq, Repr

/-- The `Config` struct of config.go:20-40. `Cores` and `Ram` are `int32`,
`Retries` is `int`; they are only compared with and assigned constants. -/
structure Config where
  PackerConfig : PackerConfig
  Comm : CommConfig
  IonosUsername : String
  IonosPassword : String
  IonosToken : String
  IonosApiUrl : String
  Region : String
  Image : String
  SnapshotName : String
  DiskSize : Float32
  DiskType : String
  ServerType : String
  CubeTemplate : String
  Cores : Int
  Ram : Int
  Retries : Int
  ctx : Context
deriving DecidableEq, Repr

/-- One raw configuration block handed to `Prepare`. -/
abbrev Raw := List (String × String)

/-- The collaborators of `Prepare` outside this package. -/
structure World where
  /-- `os.Getenv`: the value of a variable, `""` when it is unset. -/
  getenv : String → String
  /-- `interpolate.Render(v, nil)`: the rendered text or an error. -/
  render : String → Except String String
  /-- `communicator.Config.Prepare(ctx)` on a communicator configuration: the
  configuration it leaves behind and the errors it returns; the context is
  only read. -/
  commPrepare : Context → CommConfig → CommConfig × ErrorSlice
  /-- `config.Decode(c, opts, raws...)`: the configuration after decoding and
  the error it returns, if any. -/
  decode : Config → List Raw → Config × Option String

/-- The error value `Prepare` returns: the error of `config.Decode`, or the
`*packersdk.MultiError` with its `Errors`. -/
inductive PrepareError where
  | decode (msg : String)
  | multi (errors : List String)
deriving DecidableEq, Repr

/-- What a returning call of `Prepare` leaves behind: the configuration behind
the receiver pointer, the returned error (`none` is nil) and the arguments of
the calls to `packersdk.LogSecretFilter.Set`, in order. The returned warnings
are always nil. -/
structure Returned where
  cfg : Config
  err : Option PrepareError
  secrets : List String
deriving DecidableEq, Repr

/-- A call of `Prepare` either panics or returns. -/
inductive Outcome where
  | panicked (err : String)
  | returned (r : Returned)
deriving DecidableEq, Repr

/-- The local state of `Prepare` after decoding: the receiver `c` and the
variable `errs` (`none` is the nil `*MultiError`, `some es` one whose `Errors`
are `es`). -/
structure State where
  c : Config
  errs : Option (List String)
deriving DecidableEq, Repr

/-! ## The error messages -/

def sshMsg : String := "either ssh private key path or ssh password must be set"
def imageMsg : String := "IONOS 'image' is required"
def cubeMsg : String := "IONOS 'cube_template' is required for server_type CUBE"
def authMsg : String :=
  "IONOS authentication is required, either via token or username/password"
def userPassMsg : String :=
  "IONOS username and password is required when token is not provided"

/-- The template of the default snapshot name, config.go:72. -/
def snapshotTemplate : String := "packer-\x7b\x7btimestamp\x7d\x7d"

/-! ## Config.Prepare -/

/-- `packersdk.MultiErrorAppend(errs, es...)` for a `*MultiError` first
argument: a nil one is replaced by a fresh empty one, then the errors are
appended to its `Errors`. -/
def MultiErrorAppend (errs : Option (List String)) (es : List String) :
    Option (List String) :=
  match errs with
  | none => some ([] ++ es)
  | some old => some (old ++ es)

/-- config.go:61-64, the first call of the communicator's `Prepare`. -/
def commFirst (w : World) (s : State) : State :=
  let r := w.commPrepare s.c.ctx s.c.Comm
  match r.2 with
  | some err =>
      { c := { s.c with Comm := r.1 }, errs := MultiErrorAppend s.errs err }
  | none => { c := { s.c with Comm := r.1 }, errs := s.errs }

/-- config.go:66-69. -/
def checkSSH (s : State) : State :=
  if s.c.Comm.SSHPassword = "" ∧ s.c.Comm.SSHPrivateKeyFile = "" then
    { s with errs := MultiErrorAppend s.errs [sshMsg] }
  else s

/-- config.go:71-79; `Except.error` is the panic. -/
def defaultSnapshotName (w : World) (s : State) : Except String State :=
  if s.c.SnapshotName = "" then
    match w.render snapshotTemplate with
    | .error err => .error err
    | .ok d => .ok { s with c := { s.c with SnapshotName := d } }
  else .ok s

/-- config.go:81-83. -/
def envUsername (w : World) (s : State) : State :=
  if s.c.IonosUsername = "" then
    { s with c := { s.c with IonosUsername := w.getenv "IONOS_USERNAME" } }
  else s

/-- config.go:85-87. -/
def envPassword (w : World) (s : State) : State :=
  if s.c.IonosPassword = "" then
    { s with c := { s.c with IonosPassword := w.getenv "IONOS_PASSWORD" } }
  else s

/-- config.go:89-91. -/
def envToken (w : World) (s : State) : State :=
  if s.c.IonosToken = "" then
    { s with c := { s.c with IonosToken := w.getenv "IONOS_TOKEN" } }
  else s

/-- config.go:93-95. -/
def defaultApiUrl (s : State) : State :=
  if s.c.IonosApiUrl = "" then
    { s with c := { s.c with IonosApiUrl := "https://api.ionos.com" } }
  else s

/-- config.go:97-99. -/
def defaultCores (s : State) : State :=
  if s.c.Cores = 0 then { s with c := { s.c with Cores := 4 } } else s

/-- config.go:101-103. -/
def defaultRam (s : State) : State :=
  if s.c.Ram = 0 then { s with c := { s.c with Ram := 2048 } } else s

/-- config.go:105-107. -/
def defaultDiskSize (s : State) : State :=
  if s.c.DiskSize.isZero then
    { s with c := { s.c with DiskSize := Float32.fifty } }
  else s

/-- config.go:109-111. -/
def defaultRegion (s : State) : State :=
  if s.c.Region = "" then { s with c := { s.c with Region := "us/las" } } else s

/-- config.go:113-115. -/
def defaultDiskType (s : State) : State :=
  if s.c.DiskType = "" then { s with c := { s.c with DiskType := "HDD" } } else s

/-- config.go:117-119, the second call of the communicator's `Prepare`. -/
def commSecond (w : World) (s : State) : State :=
  let r := w.commPrepare s.c.ctx s.c.Comm
  if 0 < r.2.len then
    { c := { s.c with Comm := r.1 }, errs := MultiErrorAppend s.errs r.2.elems }
  else { c := { s.c with Comm := r.1 }, errs := s.errs }

/-- config.go:121-124. -/
def checkImage (s : State) : State :=
  if s.c.Image = "" then { s with errs := MultiErrorAppend s.errs [imageMsg] }
  else s

/-- config.go:126-134. -/
def cubeOverride (s : State) : State :=
  if s.c.ServerType = "CUBE" then
    let errs :=
      if s.c.CubeTemplate = "" then MultiErrorAppend s.errs [cubeMsg] else s.errs
    { c := { s.c with DiskType := "DAS", Ram := 0, Cores := 0 }, errs := errs }
  else s

/-- config.go:136-142. -/
def checkAuth (s : State) : State :=
  if s.c.IonosToken = "" ∧ s.c.IonosUsername = "" ∧ s.c.IonosPassword = "" then
    { s with errs := MultiErrorAppend s.errs [authMsg] }
  else if (s.c.IonosUsername = "" ∨ s.c.IonosPassword = "") ∧ s.c.IonosToken = "" then
    { s with errs := MultiErrorAppend s.errs [userPassMsg] }
  else s

/-- config.go:144-150. -/
def finish (s : State) : Returned :=
  match s.errs with
  | some es =>
      if 0 < es.length then { cfg := s.c, err := some (.multi es), secrets := [] }
      else { cfg := s.c, err := none, secrets := [s.c.IonosUsername, s.c.IonosToken] }
  | none => { cfg := s.c, err := none, secrets := [s.c.IonosUsername, s.c.IonosToken] }

/-- `Prepare` from config.go:59 on, run on the decoded configuration `c`. -/
def PrepareDecoded (w : World) (c : Config) : Outcome :=
  let s : State := { c := c, errs := none }
  let s := commFirst w s
  let s := checkSSH s
  match defaultSnapshotName w s with
  | .error err => .panicked err
  | .ok s =>
    let s := envUsername w s
    let s := envPassword w s
    let s := envToken w s
    let s := defaultApiUrl s
    let s := defaultCores s
    let s := defaultRam s
    let s := defaultDiskSize s
    let s := defaultRegion s
    let s := defaultDiskType s
    let s := commSecond w s
    let s := checkImage s
    let s := cubeOverride s
    let s := checkAuth s
    .returned (finish s)

/-- `Config.Prepare`, config.go:42-151. -/
def Prepare (w : World) (c : Config) (raws : List Raw) : Outcome :=
  match w.decode c raws with
  | (c, some err) => .returned { cfg := c, err := some (.decode err), secrets := [] }
  | (c, none) => PrepareDecoded w c

/-- The messages carried by a returned error. -/
def PrepareError.messages : PrepareError → List String
  | .decode msg => [msg]
  | .multi errors => errors

/-- The list of errors a call returned; empty when the returned error is nil. -/
def Returned.errors (r : Returned) : List String :=
  match r.err with
  | none => []
  | some e => e.messages

/-! ## Closed forms used by the proofs -/

/-- The communicator configuration left by the first call of its `Prepare`. -/
def commAfterFirst (w : World) (c : Config) : CommConfig :=
  (w.commPrepare c.ctx c.Comm).1

/-- The errors returned by the first call of the communicator's `Prepare`. -/
def commErrsFirst (w : World) (c : Config) : List String :=
  (w.commPrepare c.ctx c.Comm).2.elems

/-- The communicator configuration left by the second call of its `Prepare`. -/
def commAfterSecond (w : World) (c : Config) : CommConfig :=
  (w.commPrepare c.ctx (commAfterFirst w c)).1

/-- The errors returned by the second call of the communicator's `Prepare`. -/
def commErrsSecond (w : World) (c : Config) : List String :=
  (w.commPrepare c.ctx (commAfterFirst w c)).2.elems

/-- The `Errors` of a possibly nil `*MultiError`. -/
def State.list (s : State) : List String := s.errs.getD []

/-- The snapshot name after config.go:71-79 when no panic occurs. -/
def snapshotNameOf (w : World) (c : Config) : String :=
  if c.SnapshotName = "" then
    match w.render snapshotTemplate with
    | .ok d => d
    | .error _ => ""
  else c.SnapshotName

/-- The configuration after all assignments of `Prepare`, field by field. -/
def resolved (w : World) (c : Config) : Config :=
  { PackerConfig := c.PackerConfig
    Comm := commAfterSecond w c
    IonosUsername :=
      if c.IonosUsername = "" then w.getenv "IONOS_USERNAME" else c.IonosUsername
    IonosPassword :=
      if c.IonosPassword = "" then w.getenv "IONOS_PASSWORD" else c.IonosPassword
    IonosToken := if c.IonosToken = "" then w.getenv "IONOS_TOKEN" else c.IonosToken
    IonosApiUrl := if c.IonosApiUrl = "" then "https://api.ionos.com" else c.IonosApiUrl
    Region := if c.Region = "" then "us/las" else c.Region
    Image := c.Image
    SnapshotName := snapshotNameOf w c
    DiskSize := if c.DiskSize.isZero then Float32.fifty else c.DiskSize
    DiskType :=
      if c.ServerType = "CUBE" then "DAS"
      else if c.DiskType = "" then "HDD" else c.DiskType
    ServerType := c.ServerType
    CubeTemplate := c.CubeTemplate
    Cores := if c.ServerType = "CUBE" then 0 else if c.Cores = 0 then 4 else c.Cores
    Ram := if c.ServerType = "CUBE" then 0 else if c.Ram = 0 then 2048 else c.Ram
    Retries := c.Retries
    ctx := c.ctx }

/-- The authentication error of config.go:136-142 for given credentials. -/
def authErrors (token username password : String) : List String :=
  if token = "" ∧ username = "" ∧ password = "" then [authMsg]
  else if (username = "" ∨ password = "") ∧ token = "" then [userPassMsg]
  else []

/-- The errors collected in `errs`, in the order of the appends. -/
def validationErrors (w : World) (c : Config) : List String :=
  commErrsFirst w c
    ++ (if (commAfterFirst w c).SSHPassword = "" ∧
          (commAfterFirst w c).SSHPrivateKeyFile = "" then [sshMsg] else [])
    ++ commErrsSecond w c
    ++ (if c.Image = "" then [imageMsg] else [])
    ++ (if c.ServerType = "CUBE" ∧ c.CubeTemplate = "" then [cubeMsg] else [])
    ++ authErrors (resolved w c).IonosToken (resolved w c).IonosUsername
        (resolved w c).IonosPassword

/-- What `Prepare` returns for a configuration and a list of collected errors. -/
def returnedOf (cfg : Config) (errs : List String) : Returned :=
  if errs = [] then
    { cfg := cfg, err := none, secrets := [cfg.IonosUsername, cfg.IonosToken] }
  else { cfg := cfg, err := some (.multi errs), secrets := [] }

/-! ## Sample inputs -/

/-- A world in which only `IONOS_TOKEN` is set, the snapshot template renders
to a timestamped name and the communicator accepts every configuration. -/
def tokenWorld : World :=
  { getenv := fun k => if k = "IONOS_TOKEN" then "t0k3n" else ""
    render := fun t =>
      if t = snapshotTemplate then .ok "packer-1700000000" else .error "unknown template"
    commPrepare := fun _ k => (k, none)
    decode := fun c _ => (c, none) }

/-- A world without credentials in the environment whose communicator demands
an ssh user name on every call. -/
def strictWorld : World :=
  { getenv := fun _ => ""
    render := fun t =>
      if t = snapshotTemplate then .ok "packer-1700000000" else .error "unknown template"
    commPrepare := fun _ k => (k, some ["An ssh_username must be specified"])
    decode := fun c _ => (c, none) }

/-- A world like `tokenWorld` whose decoder rejects every input. -/
def rejectingWorld : World :=
  { tokenWorld with decode := fun c _ => (c, some "unknown configuration key") }

/-- The configuration in which every field is unset. -/
def emptyConfig : Config :=
  { PackerConfig := [], Comm := { SSHPassword := "", SSHPrivateKeyFile := "", settings := [] }
    IonosUsername := "", IonosPassword := "", IonosToken := "", IonosApiUrl := ""
    Region := "", Image := "", SnapshotName := "", DiskSize := 0, DiskType := ""
    ServerType := "", CubeTemplate := "", Cores := 0, Ram := 0, Retries := 0, ctx := [] }

/-- A minimal valid configuration: an image and an ssh password. -/
def basicConfig : Config :=
  { emptyConfig with
    Comm := { SSHPassword := "secret", SSHPrivateKeyFile := "", settings := [] }
    Image := "ubuntu-22.04" }

/-- A valid CUBE configuration with user-supplied sizing. -/
def cubeConfig : Config :=
  { basicConfig with
    ServerType := "CUBE", CubeTemplate := "CUBES XS", Cores := 8, Ram := 4096
    DiskType := "SSD" }

/-- The basic configuration with a user name of its own. -/
def userConfig : Config := { basicConfig with IonosUsername := "alice" }

/-- The basic configuration with a region, a core count and a snapshot name of
its own. -/
def sizedConfig : Config :=
  { basicConfig with Region := "de/fra", Cores := 2, SnapshotName := "nightly" }

/-- The basic configuration with a user name and a password of its own. -/
def aliceConfig : Config := { userConfig with IonosPassword := "wonderland" }

/-- A CUBE configuration without cube template, with user-supplied sizing. -/
def cubeNoTemplate : Config := { cubeConfig with CubeTemplate := "" }

/-! ## The steps of `Prepare`, one by one -/

theorem MultiErrorAppend_getD (errs : Option (List String)) (es : List String) :
    (MultiErrorAppend errs es).getD [] = errs.getD [] ++ es := by
  cases errs <;> simp [MultiErrorAppend]

theorem finish_eq (s : State) : finish s = returnedOf s.c s.list := by
  unfold finish returnedOf State.list
  cases h : s.errs with
  | none => simp
  | some es => cases es <;> simp

theorem commFirst_c (w : World) (s : State) :
    (commFirst w s).c = { s.c with Comm := (w.commPrepare s.c.ctx s.c.Comm).1 } := by
  unfold commFirst
  cases h : (w.commPrepare s.c.ctx s.c.Comm).2 <;> simp only [h]

theorem commFirst_list (w : World) (s : State) :
    (commFirst w s).list = s.list ++ (w.commPrepare s.c.ctx s.c.Comm).2.elems := by
  unfold commFirst State.list ErrorSlice.elems
  cases h : (w.commPrepare s.c.ctx s.c.Comm).2 <;> simp [h, MultiErrorAppend_getD]

theorem checkSSH_c (s : State) : (checkSSH s).c = s.c := by
  unfold checkSSH; split <;> rfl

theorem checkSSH_list (s : State) :
    (checkSSH s).list = s.list ++
      (if s.c.Comm.SSHPassword = "" ∧ s.c.Comm.SSHPrivateKeyFile = "" then [sshMsg]
       else []) := by
  unfold checkSSH State.list
  split <;> simp [MultiErrorAppend_getD]

theorem defaultSnapshotName_ok (w : World) (s : State)
    (hr : s.c.SnapshotName = "" → ∃ d, w.render snapshotTemplate = .ok d) :
    defaultSnapshotName w s =
      .ok { c := { s.c with SnapshotName := snapshotNameOf w s.c }, errs := s.errs } := by
  unfold defaultSnapshotName snapshotNameOf
  by_cases h : s.c.SnapshotName = ""
  · obtain ⟨d, hd⟩ := hr h
    simp only [h, hd, if_true]
  · simp only [h, if_false]

theorem envUsername_c (w : World) (s : State) :
    (envUsername w s).c = { s.c with IonosUsername :=
      if s.c.IonosUsername = "" then w.getenv "IONOS_USERNAME" else s.c.IonosUsername } := by
  unfold envUsername; split <;> rename_i h <;> simp only [h, if_true, if_false]

theorem envUsername_list (w : World) (s : State) : (envUsername w s).list = s.list := by
  unfold envUsername; split <;> rfl

theorem envPassword_c (w : World) (s : State) :
    (envPassword w s).c = { s.c with IonosPassword :=
      if s.c.IonosPassword = "" then w.getenv "IONOS_PASSWORD" else s.c.IonosPassword } := by
  unfold envPassword; split <;> rename_i h <;> simp only [h, if_true, if_false]

theorem envPassword_list (w : World) (s : State) : (envPassword w s).list = s.list := by
  unfold envPassword; split <;> rfl

theorem envToken_c (w : World) (s : State) :
    (envToken w s).c = { s.c with IonosToken :=
      if s.c.IonosToken = "" then w.getenv "IONOS_TOKEN" else s.c.IonosToken } := by
  unfold envToken; split <;> rename_i h <;> simp only [h, if_true, if_false]

theorem envToken_list (w : World) (s : State) : (envToken w s).list = s.list := by
  unfold envToken; split <;> rfl

theorem defaultApiUrl_c (s : State) :
    (defaultApiUrl s).c = { s.c with IonosApiUrl :=
      if s.c.IonosApiUrl = "" then "https://api.ionos.com" else s.c.IonosApiUrl } := by
  unfold defaultApiUrl; split <;> rename_i h <;> simp only [h, if_true, if_false]

theorem defaultApiUrl_list (s : State) : (defaultApiUrl s).list = s.list := by
  unfold defaultApiUrl; split <;> rfl

theorem defaultCores_c (s : State) :
    (defaultCores s).c = { s.c with Cores :=
      if s.c.Cores = 0 then 4 else s.c.Cores } := by
  unfold defaultCores; split <;> rename_i h <;> simp only [h, if_true, if_false]

theorem defaultCores_list (s : State) : (defaultCores s).list = s.list := by
  unfold defaultCores; split <;> rfl

theorem defaultRam_c (s : State) :
    (defaultRam s).c = { s.c with Ram :=
      if s.c.Ram = 0 then 2048 else s.c.Ram } := by
  unfold defaultRam; split <;> rename_i h <;> simp only [h, if_true, if_false]

theorem defaultRam_list (s : State) : (defaultRam s).list = s.list := by
  unfold defaultRam; split <;> rfl

theorem defaultDiskSize_c (s : State) :
    (defaultDiskSize s).c = { s.c with DiskSize :=
      if s.c.DiskSize.isZero then Float32.fifty else s.c.DiskSize } := by
  unfold defaultDiskSize; split <;> rename_i h <;> simp only [h, if_true, if_false]

theorem defaultDiskSize_list (s : State) : (defaultDiskSize s).list = s.list := by
  unfold defaultDiskSize; split <;> rfl

theorem defaultRegion_c (s : State) :
    (defaultRegion s).c = { s.c with Region :=
      if s.c.Region = "" then "us/las" else s.c.Region } := by
  unfold defaultRegion; split <;> rename_i h <;> simp only [h, if_true, if_false]

theorem defaultRegion_list (s : State) : (defaultRegion s).list = s.list := by
  unfold defaultRegion; split <;> rfl

theorem defaultDiskType_c (s : State) :
    (defaultDiskType s).c = { s.c with DiskType :=
      if s.c.DiskType = "" then "HDD" else s.c.DiskType } := by
  unfold defaultDiskType; split <;> rename_i h <;> simp only [h, if_true, if_false]

theorem defaultDiskType_list (s : State) : (defaultDiskType s).list = s.list := by
  unfold defaultDiskType; split <;> rfl

theorem commSecond_c (w : World) (s : State) :
    (commSecond w s).c = { s.c with Comm := (w.commPrepare s.c.ctx s.c.Comm).1 } := by
  unfold commSecond
  by_cases h : 0 < (w.commPrepare s.c.ctx s.c.Comm).2.len <;> simp only [h, if_true, if_false]

theorem commSecond_list (w : World) (s : State) :
    (commSecond w s).list = s.list ++ (w.commPrepare s.c.ctx s.c.Comm).2.elems := by
  unfold commSecond State.list
  by_cases h : 0 < (w.commPrepare s.c.ctx s.c.Comm).2.len
  · simp only [h, if_true, MultiErrorAppend_getD]
  · have h0 : (w.commPrepare s.c.ctx s.c.Comm).2.elems = [] := by
      unfold ErrorSlice.len at h
      unfold ErrorSlice.elems
      exact List.length_eq_zero.mp (Nat.eq_zero_of_not_pos h)
    simp only [h, if_false, h0, List.append_nil]

theorem checkImage_c (s : State) : (checkImage s).c = s.c := by
  unfold checkImage; split <;> rfl

theorem checkImage_list (s : State) :
    (checkImage s).list = s.list ++ (if s.c.Image = "" then [imageMsg] else []) := by
  unfold checkImage State.list
  split <;> simp [MultiErrorAppend_getD]

theorem cubeOverride_c (s : State) :
    (cubeOverride s).c =
      { s.c with
        DiskType := if s.c.ServerType = "CUBE" then "DAS" else s.c.DiskType
        Ram := if s.c.ServerType = "CUBE" then 0 else s.c.Ram
        Cores := if s.c.ServerType = "CUBE" then 0 else s.c.Cores } := by
  unfold cubeOverride; split <;> rename_i h <;> simp only [h, if_true, if_false]

theorem cubeOverride_list (s : State) :
    (cubeOverride s).list = s.list ++
      (if s.c.ServerType = "CUBE" ∧ s.c.CubeTemplate = "" then [cubeMsg] else []) := by
  unfold cubeOverride State.list
  by_cases h : s.c.ServerType = "CUBE" <;> by_cases h2 : s.c.CubeTemplate = "" <;>
    simp [h, h2, MultiErrorAppend_getD]

theorem checkAuth_c (s : State) : (checkAuth s).c = s.c := by
  unfold checkAuth; split
  · rfl
  · split <;> rfl

theorem checkAuth_list (s : State) :
    (checkAuth s).list =
      s.list ++ authErrors s.c.IonosToken s.c.IonosUsername s.c.IonosPassword := by
  unfold checkAuth authErrors State.list
  split
  · simp [MultiErrorAppend_getD]
  · split <;> simp [MultiErrorAppend_getD]

/-- Whenever the default snapshot name can be rendered (or is not needed),
`Prepare` returns, with the configuration `resolved` and the collected errors
`validationErrors`. -/
theorem PrepareDecoded_returns (w : World) (c : Config)
    (hr : c.SnapshotName = "" → ∃ d, w.render snapshotTemplate = .ok d) :
    PrepareDecoded w c = .returned (returnedOf (resolved w c) (validationErrors w c)) := by
  have hs : (checkSSH (commFirst w { c := c, errs := none })).c.SnapshotName = ""
      → ∃ d, w.render snapshotTemplate = .ok d := by
    intro h
    rw [checkSSH_c, commFirst_c] at h
    exact hr h
  unfold PrepareDecoded
  simp only [defaultSnapshotName_ok w _ hs]
  congr 1
  rw [finish_eq]
  congr 1
  · simp only [checkAuth_c, cubeOverride_c, checkImage_c, commSecond_c, defaultDiskType_c,
      defaultRegion_c, defaultDiskSize_c, defaultRam_c, defaultCores_c, defaultApiUrl_c,
      envToken_c, envPassword_c, envUsername_c, checkSSH_c, commFirst_c]
    unfold resolved commAfterSecond commAfterFirst snapshotNameOf
    by_cases hcube : c.ServerType = "CUBE" <;> simp only [hcube, if_true, if_false]
  · simp only [checkAuth_list, cubeOverride_list, checkImage_list, commSecond_list,
      defaultDiskType_list, defaultRegion_list, defaultDiskSize_list, defaultRam_list,
      defaultCores_list, defaultApiUrl_list, envToken_list, envPassword_list,
      envUsername_list, checkSSH_list, commFirst_list,
      checkAuth_c, cubeOverride_c, checkImage_c, commSecond_c, defaultDiskType_c,
      defaultRegion_c, defaultDiskSize_c, defaultRam_c, defaultCores_c, defaultApiUrl_c,
      envToken_c, envPassword_c, envUsername_c, checkSSH_c, commFirst_c]
    have hl : (checkSSH (commFirst w { c := c, errs := none })).list =
        (w.commPrepare c.ctx c.Comm).2.elems ++
          (if (w.commPrepare c.ctx c.Comm).1.SSHPassword = "" ∧
              (w.commPrepare c.ctx c.Comm).1.SSHPrivateKeyFile = "" then [sshMsg]
           else []) := by
      rw [checkSSH_list, commFirst_list, commFirst_c]
      simp [State.list]
    unfold validationErrors resolved commErrsFirst commErrsSecond commAfterFirst
    unfold State.list at hl ⊢
    simp only [hl, List.append_assoc]

/-- After a successful decode, `Prepare` is `PrepareDecoded` on the decoded
configuration. -/
theorem Prepare_of_decoded (w : World) (c0 c : Config) (raws : List Raw)
    (hd : w.decode c0 raws = (c, none)) : Prepare w c0 raws = PrepareDecoded w c := by
  unfold Prepare
  rw [hd]

/-- A failing decode makes `Prepare` return the decode error at once. -/
theorem Prepare_of_decode_error (w : World) (c0 c : Config) (raws : List Raw) (err : String)
    (hd : w.decode c0 raws = (c, some err)) :
    Prepare w c0 raws = .returned { cfg := c, err := some (.decode err), secrets := [] } := by
  unfold Prepare
  rw [hd]

theorem returnedOf_cfg (cfg : Config) (errs : List String) :
    (returnedOf cfg errs).cfg = cfg := by
  unfold returnedOf; split <;> rfl

theorem returnedOf_err_eq_none (cfg : Config) (errs : List String) :
    (returnedOf cfg errs).err = none ↔ errs = [] := by
  unfold returnedOf; split <;> simp [*]

theorem returnedOf_errors (cfg : Config) (errs : List String) :
    (returnedOf cfg errs).errors = errs := by
  unfold returnedOf Returned.errors
  by_cases h : errs = []
  · simp [h]
  · simp [h, PrepareError.messages]

theorem authErrors_eq_nil (token username password : String) :
    authErrors token username password = [] ↔
      token ≠ "" ∨ (username ≠ "" ∧ password ≠ "") := by
  unfold authErrors
  by_cases ht : token = "" <;> by_cases hu : username = "" <;>
    by_cases hp : password = "" <;> simp [ht, hu, hp]

theorem validationErrors_eq_nil (w : World) (c : Config) :
    validationErrors w c = [] ↔
      commErrsFirst w c = [] ∧ commErrsSecond w c = [] ∧
      ((commAfterFirst w c).SSHPassword ≠ "" ∨ (commAfterFirst w c).SSHPrivateKeyFile ≠ "") ∧
      c.Image ≠ "" ∧
      (c.ServerType ≠ "CUBE" ∨ c.CubeTemplate ≠ "") ∧
      ((if c.IonosToken = "" then w.getenv "IONOS_TOKEN" else c.IonosToken) ≠ "" ∨
        ((if c.IonosUsername = "" then w.getenv "IONOS_USERNAME" else c.IonosUsername) ≠ "" ∧
         (if c.IonosPassword = "" then w.getenv "IONOS_PASSWORD" else c.IonosPassword) ≠ "")) := by
  unfold validationErrors resolved
  simp only [List.append_eq_nil, ite_eq_right_iff, List.cons_ne_nil, imp_false,
    authErrors_eq_nil]
  tauto

/-- C1. For a decoded configuration `c` whose default snapshot name can be
rendered, `Prepare` returns, and the returned error is nil exactly when both
calls of the communicator's `Prepare` report no errors, `SSHPassword` or
`SSHPrivateKeyFile` (as read at config.go:66, after the first communicator call)
is non-empty, `Image` is non-empty, `ServerType` is not "CUBE" or `CubeTemplate`
is non-empty, and after the environment fallback the token is non-empty or both
username and password are; otherwise the returned error is a `MultiError` with a
non-empty list of errors. -/
theorem prepare_nil_error_iff (w : World) (c : Config)
    (hr : c.SnapshotName = "" → ∃ d, w.render snapshotTemplate = .ok d) :
    ∃ r, PrepareDecoded w c = .returned r ∧
      (r.err = none ↔
        commErrsFirst w c = [] ∧ commErrsSecond w c = [] ∧
        ((commAfterFirst w c).SSHPassword ≠ "" ∨
          (commAfterFirst w c).SSHPrivateKeyFile ≠ "") ∧
        c.Image ≠ "" ∧
        (c.ServerType ≠ "CUBE" ∨ c.CubeTemplate ≠ "") ∧
        ((if c.IonosToken = "" then w.getenv "IONOS_TOKEN" else c.IonosToken) ≠ "" ∨
          ((if c.IonosUsername = "" then w.getenv "IONOS_USERNAME"
              else c.IonosUsername) ≠ "" ∧
           (if c.IonosPassword = "" then w.getenv "IONOS_PASSWORD"
              else c.IonosPassword) ≠ ""))) ∧
      (r.err ≠ none → ∃ es, r.err = some (.multi es) ∧ es ≠ []) := by
  refine ⟨_, PrepareDecoded_returns w c hr, ?_, ?_⟩
  · rw [← validationErrors_eq_nil]
    unfold returnedOf
    split <;> simp [*]
  · unfold returnedOf
    split
    · intro h; exact absurd rfl h
    · rename_i h
      intro _
      exact ⟨_, rfl, h⟩

/-- C1 at a sample input: with the token taken from the environment the basic
configuration is accepted. -/
theorem prepare_nil_error_iff_witness :
    (basicConfig.SnapshotName = "" → ∃ d, tokenWorld.render snapshotTemplate = .ok d) ∧
    ∃ r, PrepareDecoded tokenWorld basicConfig = .returned r ∧ r.err = none := by
  have hr : basicConfig.SnapshotName = "" →
      ∃ d, tokenWorld.render snapshotTemplate = .ok d := fun _ => ⟨_, rfl⟩
  obtain ⟨r, h, hiff, _⟩ := prepare_nil_error_iff tokenWorld basicConfig hr
  exact ⟨hr, r, h, hiff.mpr (by decide)⟩

/-- C2. For a decoded configuration whose default snapshot name can be rendered,
`Prepare` returns, and when the returned error is nil the configuration it
leaves behind has non-empty `Region`, `IonosApiUrl`, `DiskType` and `Image`, and
either a non-empty `IonosToken` or both `IonosUsername` and `IonosPassword`
non-empty. -/
theorem prepare_success_resolved (w : World) (c : Config)
    (hr : c.SnapshotName = "" → ∃ d, w.render snapshotTemplate = .ok d) :
    ∃ r, PrepareDecoded w c = .returned r ∧
      (r.err = none →
        r.cfg.Region ≠ "" ∧ r.cfg.IonosApiUrl ≠ "" ∧ r.cfg.DiskType ≠ "" ∧
        r.cfg.Image ≠ "" ∧
        (r.cfg.IonosToken ≠ "" ∨ (r.cfg.IonosUsername ≠ "" ∧ r.cfg.IonosPassword ≠ ""))) := by
  refine ⟨_, PrepareDecoded_returns w c hr, ?_⟩
  intro hnil
  rw [returnedOf_err_eq_none, validationErrors_eq_nil] at hnil
  obtain ⟨_, _, _, himg, _, hauth⟩ := hnil
  rw [returnedOf_cfg]
  refine ⟨?_, ?_, ?_, himg, hauth⟩
  · show (if c.Region = "" then "us/las" else c.Region) ≠ ""
    split
    · decide
    · assumption
  · show (if c.IonosApiUrl = "" then "https://api.ionos.com" else c.IonosApiUrl) ≠ ""
    split
    · decide
    · assumption
  · show (if c.ServerType = "CUBE" then "DAS"
      else if c.DiskType = "" then "HDD" else c.DiskType) ≠ ""
    split
    · decide
    · split
      · decide
      · assumption

/-- C2 at a sample input: the basic configuration is accepted, with the default
region, url and disk type and the token of the environment. -/
theorem prepare_success_resolved_witness :
    (basicConfig.SnapshotName = "" → ∃ d, tokenWorld.render snapshotTemplate = .ok d) ∧
    ∃ r, PrepareDecoded tokenWorld basicConfig = .returned r ∧ r.err = none ∧
      r.cfg.Region = "us/las" ∧ r.cfg.Region ≠ "" ∧ r.cfg.IonosApiUrl ≠ "" ∧
      r.cfg.DiskType ≠ "" ∧ r.cfg.Image ≠ "" ∧
      (r.cfg.IonosToken ≠ "" ∨ (r.cfg.IonosUsername ≠ "" ∧ r.cfg.IonosPassword ≠ "")) := by
  have hr : basicConfig.SnapshotName = "" →
      ∃ d, tokenWorld.render snapshotTemplate = .ok d := fun _ => ⟨_, rfl⟩
  obtain ⟨r, h, himp⟩ := prepare_success_resolved tokenWorld basicConfig hr
  have hrun : PrepareDecoded tokenWorld basicConfig =
      .returned (returnedOf (resolved tokenWorld basicConfig)
        (validationErrors tokenWorld basicConfig)) := by decide
  have hrr : r = returnedOf (resolved tokenWorld basicConfig)
      (validationErrors tokenWorld basicConfig) := by
    rw [h] at hrun
    exact Outcome.returned.inj hrun
  have hnil : r.err = none := by rw [hrr]; decide
  have hreg : r.cfg.Region = "us/las" := by rw [hrr]; decide
  exact ⟨hr, r, h, hnil, hreg, himp hnil⟩

/-- C3, the claim fails: the valid CUBE configuration is accepted (nil error)
and is left with `Cores = 0` and `Ram = 0`. -/
theorem prepare_sizing_counterexample :
    ∃ r, PrepareDecoded tokenWorld cubeConfig = .returned r ∧ r.err = none ∧
      ¬ (r.cfg.Cores ≠ 0 ∧ r.cfg.Ram ≠ 0 ∧ r.cfg.DiskSize.isZero = false) := by
  refine ⟨returnedOf (resolved tokenWorld cubeConfig)
    (validationErrors tokenWorld cubeConfig), by decide, by decide, by decide⟩

/-- C3, amended. For a decoded configuration whose default snapshot name can be
rendered, `Prepare` returns, and when the returned error is nil `DiskSize` is
non-zero for every server type, `Cores` and `Ram` are non-zero when `ServerType`
is not "CUBE", and `Cores` and `Ram` are both 0 when `ServerType` is "CUBE". -/
theorem prepare_success_sizing (w : World) (c : Config)
    (hr : c.SnapshotName = "" → ∃ d, w.render snapshotTemplate = .ok d) :
    ∃ r, PrepareDecoded w c = .returned r ∧
      (r.err = none →
        r.cfg.DiskSize.isZero = false ∧
        (c.ServerType ≠ "CUBE" → r.cfg.Cores ≠ 0 ∧ r.cfg.Ram ≠ 0) ∧
        (c.ServerType = "CUBE" → r.cfg.Cores = 0 ∧ r.cfg.Ram = 0)) := by
  refine ⟨_, PrepareDecoded_returns w c hr, ?_⟩
  intro _
  rw [returnedOf_cfg]
  refine ⟨?_, ?_, ?_⟩
  · show (if c.DiskSize.isZero then Float32.fifty else c.DiskSize).isZero = false
    split
    · decide
    · rename_i h
      simpa using h
  · intro hc
    constructor
    · show (if c.ServerType = "CUBE" then 0 else if c.Cores = 0 then 4 else c.Cores) ≠ 0
      rw [if_neg hc]
      split
      · decide
      · assumption
    · show (if c.ServerType = "CUBE" then 0 else if c.Ram = 0 then 2048 else c.Ram) ≠ 0
      rw [if_neg hc]
      split
      · decide
      · assumption
  · intro hc
    constructor
    · show (if c.ServerType = "CUBE" then 0 else if c.Cores = 0 then 4 else c.Cores) = 0
      rw [if_pos hc]
    · show (if c.ServerType = "CUBE" then 0 else if c.Ram = 0 then 2048 else c.Ram) = 0
      rw [if_pos hc]

/-- C3 amended, at a sample input: the basic configuration (not CUBE) is
accepted with the default sizing 4 cores, 2048 MB and a non-zero disk size. -/
theorem prepare_success_sizing_witness :
    (basicConfig.SnapshotName = "" → ∃ d, tokenWorld.render snapshotTemplate = .ok d) ∧
    ∃ r, PrepareDecoded tokenWorld basicConfig = .returned r ∧ r.err = none ∧
      r.cfg.DiskSize.isZero = false ∧ r.cfg.Cores ≠ 0 ∧ r.cfg.Ram ≠ 0 := by
  have hr : basicConfig.SnapshotName = "" →
      ∃ d, tokenWorld.render snapshotTemplate = .ok d := fun _ => ⟨_, rfl⟩
  obtain ⟨r, h, himp⟩ := prepare_success_sizing tokenWorld basicConfig hr
  have hrun : PrepareDecoded tokenWorld basicConfig =
      .returned (returnedOf (resolved tokenWorld basicConfig)
        (validationErrors tokenWorld basicConfig)) := by decide
  have hrr : r = returnedOf (resolved tokenWorld basicConfig)
      (validationErrors tokenWorld basicConfig) := by
    rw [h] at hrun
    exact Outcome.returned.inj hrun
  have hnil : r.err = none := by rw [hrr]; decide
  obtain ⟨hd, hn, _⟩ := himp hnil
  exact ⟨hr, r, h, hnil, hd, hn (by decide)⟩

/-- C4, the claim fails: with `IONOS_TOKEN` set in the environment, preparing
the empty configuration returns validation errors and still leaves the token of
the environment, the default url, region, disk type and sizing and the rendered
snapshot name in the configuration. -/
theorem prepare_failed_state_counterexample :
    ∃ r, PrepareDecoded tokenWorld emptyConfig = .returned r ∧ r.err ≠ none ∧
      r.cfg ≠ emptyConfig ∧
      emptyConfig.IonosToken = "" ∧ r.cfg.IonosToken = "t0k3n" ∧
      emptyConfig.Region = "" ∧ r.cfg.Region = "us/las" ∧
      emptyConfig.Cores = 0 ∧ r.cfg.Cores = 4 := by
  refine ⟨returnedOf (resolved tokenWorld emptyConfig)
    (validationErrors tokenWorld emptyConfig), by decide, by decide, by decide,
    by decide, by decide, by decide, by decide, by decide, by decide⟩

/-- C4, amended. For a decoded configuration whose default snapshot name can be
rendered, `Prepare` returns, and when it returns validation errors the
configuration it leaves behind has all environment fallbacks, defaults and the
CUBE override applied, exactly as on success: each credential is the decoded
value or else the environment value, url, region and disk size are the decoded
value or else the default, the snapshot name is the decoded value or else the
rendered template, disk type, cores and ram are "DAS", 0 and 0 for `ServerType`
"CUBE" and otherwise the decoded value or else the default; `Image`,
`ServerType`, `CubeTemplate` and `Retries` keep their decoded values. -/
theorem prepare_failed_state (w : World) (c : Config)
    (hr : c.SnapshotName = "" → ∃ d, w.render snapshotTemplate = .ok d) :
    ∃ r, PrepareDecoded w c = .returned r ∧
      (r.err ≠ none →
        r.cfg.IonosUsername =
          (if c.IonosUsername = "" then w.getenv "IONOS_USERNAME" else c.IonosUsername) ∧
        r.cfg.IonosPassword =
          (if c.IonosPassword = "" then w.getenv "IONOS_PASSWORD" else c.IonosPassword) ∧
        r.cfg.IonosToken =
          (if c.IonosToken = "" then w.getenv "IONOS_TOKEN" else c.IonosToken) ∧
        r.cfg.IonosApiUrl =
          (if c.IonosApiUrl = "" then "https://api.ionos.com" else c.IonosApiUrl) ∧
        r.cfg.Region = (if c.Region = "" then "us/las" else c.Region) ∧
        (c.SnapshotName ≠ "" → r.cfg.SnapshotName = c.SnapshotName) ∧
        (c.SnapshotName = "" → w.render snapshotTemplate = .ok r.cfg.SnapshotName) ∧
        r.cfg.DiskSize = (if c.DiskSize.isZero then Float32.fifty else c.DiskSize) ∧
        r.cfg.DiskType =
          (if c.ServerType = "CUBE" then "DAS"
           else if c.DiskType = "" then "HDD" else c.DiskType) ∧
        r.cfg.Cores =
          (if c.ServerType = "CUBE" then 0 else if c.Cores = 0 then 4 else c.Cores) ∧
        r.cfg.Ram =
          (if c.ServerType = "CUBE" then 0 else if c.Ram = 0 then 2048 else c.Ram) ∧
        r.cfg.Image = c.Image ∧ r.cfg.ServerType = c.ServerType ∧
        r.cfg.CubeTemplate = c.CubeTemplate ∧ r.cfg.Retries = c.Retries) := by
  refine ⟨_, PrepareDecoded_returns w c hr, ?_⟩
  intro _
  rw [returnedOf_cfg]
  refine ⟨rfl, rfl, rfl, rfl, rfl, ?_, ?_, rfl, rfl, rfl, rfl, rfl, rfl, rfl, rfl⟩
  · intro h
    show snapshotNameOf w c = c.SnapshotName
    unfold snapshotNameOf
    rw [if_neg h]
  · intro h
    obtain ⟨d, hd⟩ := hr h
    show w.render snapshotTemplate = .ok (snapshotNameOf w c)
    unfold snapshotNameOf
    rw [if_pos h, hd]

/-- C4 amended, at a sample input: the rejected empty configuration carries
the token of the environment and the defaults. -/
theorem prepare_failed_state_witness :
    (emptyConfig.SnapshotName = "" → ∃ d, tokenWorld.render snapshotTemplate = .ok d) ∧
    ∃ r, PrepareDecoded tokenWorld emptyConfig = .returned r ∧ r.err ≠ none ∧
      r.cfg.IonosToken = "t0k3n" ∧ r.cfg.Region = "us/las" ∧ r.cfg.Cores = 4 ∧
      r.cfg.Image = "" := by
  have hr : emptyConfig.SnapshotName = "" →
      ∃ d, tokenWorld.render snapshotTemplate = .ok d := fun _ => ⟨_, rfl⟩
  obtain ⟨r, h, himp⟩ := prepare_failed_state tokenWorld emptyConfig hr
  have hrun : PrepareDecoded tokenWorld emptyConfig =
      .returned (returnedOf (resolved tokenWorld emptyConfig)
        (validationErrors tokenWorld emptyConfig)) := by decide
  have hrr : r = returnedOf (resolved tokenWorld emptyConfig)
      (validationErrors tokenWorld emptyConfig) := by
    rw [h] at hrun
    exact Outcome.returned.inj hrun
  have herr : r.err ≠ none := by rw [hrr]; decide
  obtain ⟨_, _, ht, _, hreg, _, _, _, _, hcores, _, himg, _⟩ := himp herr
  exact ⟨hr, r, h, herr, ht, hreg, hcores, himg⟩

theorem authErrors_subset (token username password e : String)
    (h : e ∈ authErrors token username password) : e = authMsg ∨ e = userPassMsg := by
  unfold authErrors at h
  split at h
  · left; simpa using h
  · split at h
    · right; simpa using h
    · simp at h

/-- C5. For a decoded configuration whose default snapshot name can be rendered,
`Prepare` returns; the returned error list contains every error of both calls of
the communicator's `Prepare`, and, the communicator not reporting one of the
three texts itself, it contains the ssh-credential message iff `SSHPassword` and
`SSHPrivateKeyFile` (as read at config.go:66) are both empty, the image message
iff `Image` is empty and the cube_template message iff `ServerType` is "CUBE"
and `CubeTemplate` is empty, each independently of all other rules. -/
theorem prepare_errors_complete (w : World) (c : Config)
    (hr : c.SnapshotName = "" → ∃ d, w.render snapshotTemplate = .ok d)
    (hown : ∀ e ∈ commErrsFirst w c ++ commErrsSecond w c,
      e ≠ sshMsg ∧ e ≠ imageMsg ∧ e ≠ cubeMsg) :
    ∃ r, PrepareDecoded w c = .returned r ∧
      (sshMsg ∈ r.errors ↔
        (commAfterFirst w c).SSHPassword = "" ∧
        (commAfterFirst w c).SSHPrivateKeyFile = "") ∧
      (imageMsg ∈ r.errors ↔ c.Image = "") ∧
      (cubeMsg ∈ r.errors ↔ c.ServerType = "CUBE" ∧ c.CubeTemplate = "") ∧
      (∀ e, e ∈ commErrsFirst w c → e ∈ r.errors) ∧
      (∀ e, e ∈ commErrsSecond w c → e ∈ r.errors) := by
  refine ⟨_, PrepareDecoded_returns w c hr, ?_⟩
  rw [returnedOf_errors]
  have h1 : sshMsg ∉ commErrsFirst w c :=
    fun h => (hown _ (List.mem_append.mpr (Or.inl h))).1 rfl
  have h2 : sshMsg ∉ commErrsSecond w c :=
    fun h => (hown _ (List.mem_append.mpr (Or.inr h))).1 rfl
  have h3 : imageMsg ∉ commErrsFirst w c :=
    fun h => (hown _ (List.mem_append.mpr (Or.inl h))).2.1 rfl
  have h4 : imageMsg ∉ commErrsSecond w c :=
    fun h => (hown _ (List.mem_append.mpr (Or.inr h))).2.1 rfl
  have h5 : cubeMsg ∉ commErrsFirst w c :=
    fun h => (hown _ (List.mem_append.mpr (Or.inl h))).2.2 rfl
  have h6 : cubeMsg ∉ commErrsSecond w c :=
    fun h => (hown _ (List.mem_append.mpr (Or.inr h))).2.2 rfl
  have a1 : ∀ t u p, sshMsg ∉ authErrors t u p := fun t u p h => by
    rcases authErrors_subset t u p _ h with h | h <;> revert h <;> decide
  have a2 : ∀ t u p, imageMsg ∉ authErrors t u p := fun t u p h => by
    rcases authErrors_subset t u p _ h with h | h <;> revert h <;> decide
  have a3 : ∀ t u p, cubeMsg ∉ authErrors t u p := fun t u p h => by
    rcases authErrors_subset t u p _ h with h | h <;> revert h <;> decide
  have d1 : sshMsg ≠ imageMsg := by decide
  have d2 : sshMsg ≠ cubeMsg := by decide
  have d3 : imageMsg ≠ cubeMsg := by decide
  unfold validationErrors
  refine ⟨?_, ?_, ?_, ?_, ?_⟩
  · simp only [List.mem_append, h1, h2, a1, false_or, or_false]
    by_cases hs : (commAfterFirst w c).SSHPassword = "" ∧
        (commAfterFirst w c).SSHPrivateKeyFile = ""
    · simp [hs]
    · by_cases hi : c.Image = "" <;>
        by_cases hc : c.ServerType = "CUBE" ∧ c.CubeTemplate = "" <;>
        simp [hs, hi, hc, d1, d2]
  · simp only [List.mem_append, h3, h4, a2, false_or, or_false]
    by_cases hi : c.Image = ""
    · simp [hi]
    · by_cases hs : (commAfterFirst w c).SSHPassword = "" ∧
          (commAfterFirst w c).SSHPrivateKeyFile = "" <;>
        by_cases hc : c.ServerType = "CUBE" ∧ c.CubeTemplate = "" <;>
        simp [hs, hi, hc, d1.symm, d3]
  · simp only [List.mem_append, h5, h6, a3, false_or, or_false]
    by_cases hc : c.ServerType = "CUBE" ∧ c.CubeTemplate = ""
    · simp [hc]
    · by_cases hs : (commAfterFirst w c).SSHPassword = "" ∧
          (commAfterFirst w c).SSHPrivateKeyFile = "" <;>
        by_cases hi : c.Image = "" <;>
        simp [hs, hi, hc, d2.symm, d3.symm]
  · intro e he
    simp only [List.mem_append]
    tauto
  · intro e he
    simp only [List.mem_append]
    tauto

/-- C5 at a sample input: the empty configuration, with a communicator that
reports a missing ssh user name on both calls, gets the communicator's error,
the ssh-credential error and the image error, and no cube_template error. -/
theorem prepare_errors_complete_witness :
    (emptyConfig.SnapshotName = "" → ∃ d, strictWorld.render snapshotTemplate = .ok d) ∧
    (∀ e ∈ commErrsFirst strictWorld emptyConfig ++ commErrsSecond strictWorld emptyConfig,
      e ≠ sshMsg ∧ e ≠ imageMsg ∧ e ≠ cubeMsg) ∧
    ∃ r, PrepareDecoded strictWorld emptyConfig = .returned r ∧
      sshMsg ∈ r.errors ∧ imageMsg ∈ r.errors ∧ cubeMsg ∉ r.errors ∧
      "An ssh_username must be specified" ∈ r.errors := by
  have hr : emptyConfig.SnapshotName = "" →
      ∃ d, strictWorld.render snapshotTemplate = .ok d := fun _ => ⟨_, rfl⟩
  have hown : ∀ e ∈ commErrsFirst strictWorld emptyConfig ++
      commErrsSecond strictWorld emptyConfig,
      e ≠ sshMsg ∧ e ≠ imageMsg ∧ e ≠ cubeMsg := by decide
  obtain ⟨r, h, hssh, himg, hcube, hfirst, _⟩ :=
    prepare_errors_complete strictWorld emptyConfig hr hown
  exact ⟨hr, hown, r, h, hssh.mpr (by decide), himg.mpr (by decide),
    fun hm => absurd (hcube.mp hm) (by decide), hfirst _ (by decide)⟩

/-- C6. For a decoded configuration whose default snapshot name can be rendered,
`Prepare` returns, and each of `IonosUsername`, `IonosPassword` and `IonosToken`
is then the decoded value when that is non-empty and otherwise the value of
`IONOS_USERNAME`, `IONOS_PASSWORD` and `IONOS_TOKEN` respectively; each result
depends on its own decoded field and its own variable only, and a non-empty
decoded credential is kept. -/
theorem prepare_env_fallback (w : World) (c : Config)
    (hr : c.SnapshotName = "" → ∃ d, w.render snapshotTemplate = .ok d) :
    ∃ r, PrepareDecoded w c = .returned r ∧
      r.cfg.IonosUsername =
        (if c.IonosUsername = "" then w.getenv "IONOS_USERNAME" else c.IonosUsername) ∧
      r.cfg.IonosPassword =
        (if c.IonosPassword = "" then w.getenv "IONOS_PASSWORD" else c.IonosPassword) ∧
      r.cfg.IonosToken =
        (if c.IonosToken = "" then w.getenv "IONOS_TOKEN" else c.IonosToken) ∧
      (c.IonosUsername ≠ "" → r.cfg.IonosUsername = c.IonosUsername) ∧
      (c.IonosPassword ≠ "" → r.cfg.IonosPassword = c.IonosPassword) ∧
      (c.IonosToken ≠ "" → r.cfg.IonosToken = c.IonosToken) := by
  refine ⟨_, PrepareDecoded_returns w c hr, ?_⟩
  rw [returnedOf_cfg]
  refine ⟨rfl, rfl, rfl, ?_, ?_, ?_⟩
  · intro h
    show (if c.IonosUsername = "" then w.getenv "IONOS_USERNAME"
      else c.IonosUsername) = c.IonosUsername
    rw [if_neg h]
  · intro h
    show (if c.IonosPassword = "" then w.getenv "IONOS_PASSWORD"
      else c.IonosPassword) = c.IonosPassword
    rw [if_neg h]
  · intro h
    show (if c.IonosToken = "" then w.getenv "IONOS_TOKEN" else c.IonosToken) = c.IonosToken
    rw [if_neg h]

/-- C6 at a sample input: a configured username is kept although the world sets
no `IONOS_USERNAME`, the unset password stays empty and the unset token is
taken from `IONOS_TOKEN`. -/
theorem prepare_env_fallback_witness :
    (userConfig.SnapshotName = "" → ∃ d, tokenWorld.render snapshotTemplate = .ok d) ∧
    ∃ r, PrepareDecoded tokenWorld userConfig = .returned r ∧
      r.cfg.IonosUsername = "alice" ∧ r.cfg.IonosPassword = "" ∧
      r.cfg.IonosToken = "t0k3n" := by
  have hr : userConfig.SnapshotName = "" →
      ∃ d, tokenWorld.render snapshotTemplate = .ok d := fun _ => ⟨_, rfl⟩
  obtain ⟨r, h, hu, hp, ht, _⟩ := prepare_env_fallback tokenWorld userConfig hr
  exact ⟨hr, r, h, hu.trans (by decide), hp.trans (by decide), ht.trans (by decide)⟩

/-- C7. For a decoded configuration whose default snapshot name can be rendered,
`Prepare` returns; when `ServerType` is not "CUBE", `IonosApiUrl`, `Region` and
`DiskType` are then the decoded value if non-empty and otherwise
"https://api.ionos.com", "us/las" and "HDD", and `Cores`, `Ram` and `DiskSize`
the decoded value if non-zero and otherwise 4, 2048 and 50; `Image`,
`ServerType`, `CubeTemplate` and `Retries` keep their decoded values for every
server type. -/
theorem prepare_defaults (w : World) (c : Config)
    (hr : c.SnapshotName = "" → ∃ d, w.render snapshotTemplate = .ok d) :
    ∃ r, PrepareDecoded w c = .returned r ∧
      (c.ServerType ≠ "CUBE" →
        r.cfg.IonosApiUrl =
          (if c.IonosApiUrl = "" then "https://api.ionos.com" else c.IonosApiUrl) ∧
        r.cfg.Region = (if c.Region = "" then "us/las" else c.Region) ∧
        r.cfg.DiskType = (if c.DiskType = "" then "HDD" else c.DiskType) ∧
        r.cfg.Cores = (if c.Cores = 0 then 4 else c.Cores) ∧
        r.cfg.Ram = (if c.Ram = 0 then 2048 else c.Ram) ∧
        r.cfg.DiskSize = (if c.DiskSize.isZero then Float32.fifty else c.DiskSize)) ∧
      r.cfg.Image = c.Image ∧ r.cfg.ServerType = c.ServerType ∧
      r.cfg.CubeTemplate = c.CubeTemplate ∧ r.cfg.Retries = c.Retries := by
  refine ⟨_, PrepareDecoded_returns w c hr, ?_, ?_⟩
  · intro hc
    rw [returnedOf_cfg]
    refine ⟨rfl, rfl, ?_, ?_, ?_, rfl⟩
    · show (if c.ServerType = "CUBE" then "DAS"
        else if c.DiskType = "" then "HDD" else c.DiskType) = _
      rw [if_neg hc]
    · show (if c.ServerType = "CUBE" then 0 else if c.Cores = 0 then 4 else c.Cores) = _
      rw [if_neg hc]
    · show (if c.ServerType = "CUBE" then 0 else if c.Ram = 0 then 2048 else c.Ram) = _
      rw [if_neg hc]
  · rw [returnedOf_cfg]
    exact ⟨rfl, rfl, rfl, rfl⟩

/-- C7 at a sample input: the configured region and core count are kept, the
unset url, disk type, ram and disk size get their defaults. -/
theorem prepare_defaults_witness :
    (emptyConfig.SnapshotName = "" → ∃ d, tokenWorld.render snapshotTemplate = .ok d) ∧
    ∃ r, PrepareDecoded tokenWorld
        { emptyConfig with Region := "de/fra", Cores := 2 } = .returned r ∧
      r.cfg.IonosApiUrl = "https://api.ionos.com" ∧ r.cfg.Region = "de/fra" ∧
      r.cfg.DiskType = "HDD" ∧ r.cfg.Cores = 2 ∧ r.cfg.Ram = 2048 ∧
      r.cfg.DiskSize = Float32.fifty ∧ r.cfg.Image = "" := by
  have hr : emptyConfig.SnapshotName = "" →
      ∃ d, tokenWorld.render snapshotTemplate = .ok d := fun _ => ⟨_, rfl⟩
  obtain ⟨r, h, hd, hi, _⟩ :=
    prepare_defaults tokenWorld { emptyConfig with Region := "de/fra", Cores := 2 } hr
  obtain ⟨h1, h2, h3, h4, h5, h6⟩ := hd (by decide)
  exact ⟨hr, r, h, h1.trans (by decide), h2.trans (by decide), h3.trans (by decide),
    h4.trans (by decide), h5.trans (by decide), h6.trans (by decide), hi⟩

/-- C8. After `Prepare`, `SnapshotName` is the decoded value when that is
non-empty, and otherwise the text `interpolate.Render` returns for the template
"packer-{{timestamp}}" (for the SDK: "packer-" followed by the unix timestamp);
in both cases `Prepare` returns and this holds whatever error it returns. -/
theorem prepare_snapshot_name (w : World) (c : Config) :
    (c.SnapshotName ≠ "" →
      ∃ r, PrepareDecoded w c = .returned r ∧ r.cfg.SnapshotName = c.SnapshotName) ∧
    (∀ d, c.SnapshotName = "" → w.render snapshotTemplate = .ok d →
      ∃ r, PrepareDecoded w c = .returned r ∧ r.cfg.SnapshotName = d) := by
  constructor
  · intro h
    refine ⟨_, PrepareDecoded_returns w c (fun h0 => absurd h0 h), ?_⟩
    rw [returnedOf_cfg]
    show snapshotNameOf w c = c.SnapshotName
    unfold snapshotNameOf
    rw [if_neg h]
  · intro d h hd
    refine ⟨_, PrepareDecoded_returns w c (fun _ => ⟨d, hd⟩), ?_⟩
    rw [returnedOf_cfg]
    show snapshotNameOf w c = d
    unfold snapshotNameOf
    rw [if_pos h, hd]

/-- C8 at sample inputs: a configured snapshot name is kept by an accepted
configuration, and the rejected empty configuration gets the rendered name. -/
theorem prepare_snapshot_name_witness :
    (sizedConfig.SnapshotName ≠ "" ∧
      ∃ r, PrepareDecoded tokenWorld sizedConfig = .returned r ∧
        r.cfg.SnapshotName = "nightly") ∧
    (emptyConfig.SnapshotName = "" ∧
      strictWorld.render snapshotTemplate = .ok "packer-1700000000" ∧
      ∃ r, PrepareDecoded strictWorld emptyConfig = .returned r ∧
        r.cfg.SnapshotName = "packer-1700000000") :=
  ⟨⟨by decide, (prepare_snapshot_name tokenWorld sizedConfig).1 (by decide)⟩,
   ⟨rfl, rfl, (prepare_snapshot_name strictWorld emptyConfig).2 _ rfl rfl⟩⟩

theorem count_validationErrors_auth (w : World) (c : Config) (m : String)
    (h1 : m ∉ commErrsFirst w c) (h2 : m ∉ commErrsSecond w c)
    (hs : m ≠ sshMsg) (hi : m ≠ imageMsg) (hc : m ≠ cubeMsg) :
    (validationErrors w c).count m =
      (authErrors (resolved w c).IonosToken (resolved w c).IonosUsername
        (resolved w c).IonosPassword).count m := by
  have e1 : (commErrsFirst w c).count m = 0 := List.count_eq_zero.mpr h1
  have e2 : (commErrsSecond w c).count m = 0 := List.count_eq_zero.mpr h2
  have e3 : ∀ (p : Prop) [Decidable p], (if p then [sshMsg] else []).count m = 0 := by
    intro p _
    split
    · exact List.count_eq_zero.mpr (by simpa using hs)
    · rfl
  have e4 : ∀ (p : Prop) [Decidable p], (if p then [imageMsg] else []).count m = 0 := by
    intro p _
    split
    · exact List.count_eq_zero.mpr (by simpa using hi)
    · rfl
  have e5 : ∀ (p : Prop) [Decidable p], (if p then [cubeMsg] else []).count m = 0 := by
    intro p _
    split
    · exact List.count_eq_zero.mpr (by simpa using hc)
    · rfl
  unfold validationErrors
  simp only [List.count_append, e1, e2, e3, e4, e5, Nat.zero_add, Nat.add_zero]

theorem count_authErrors_le (token username password : String) :
    (authErrors token username password).count authMsg +
      (authErrors token username password).count userPassMsg ≤ 1 := by
  unfold authErrors
  split
  · decide
  · split
    · decide
    · decide

theorem authMsg_mem_authErrors (token username password : String) :
    authMsg ∈ authErrors token username password ↔
      token = "" ∧ username = "" ∧ password = "" := by
  have hne : authMsg ≠ userPassMsg := by decide
  unfold authErrors
  split
  · rename_i h; simp [h]
  · rename_i h
    split
    · simp [h, hne]
    · simp [h]

theorem userPassMsg_mem_authErrors (token username password : String) :
    userPassMsg ∈ authErrors token username password ↔
      token = "" ∧ (username = "" ∨ password = "") ∧
      ¬ (token = "" ∧ username = "" ∧ password = "") := by
  have hne : userPassMsg ≠ authMsg := by decide
  unfold authErrors
  split
  · rename_i h; simp [h, hne]
  · rename_i h
    split
    · rename_i h2
      simp only [List.mem_singleton, true_iff]
      tauto
    · rename_i h2
      simp only [List.not_mem_nil, false_iff]
      tauto

/-- C9. For a decoded configuration whose default snapshot name can be rendered,
`Prepare` returns; with token, username and password taken after the environment
fallback and the communicator not reporting one of the two authentication texts
itself, the returned list holds at most one authentication error, holds
"IONOS authentication is required, ..." exactly when all three are empty, holds
"IONOS username and password is required ..." exactly when the token is empty,
username or password is empty and not all three are, and holds neither when the
token is non-empty. -/
theorem prepare_auth_errors (w : World) (c : Config)
    (hr : c.SnapshotName = "" → ∃ d, w.render snapshotTemplate = .ok d)
    (hown : ∀ e ∈ commErrsFirst w c ++ commErrsSecond w c,
      e ≠ authMsg ∧ e ≠ userPassMsg) :
    ∃ r, PrepareDecoded w c = .returned r ∧
      r.cfg.IonosToken =
        (if c.IonosToken = "" then w.getenv "IONOS_TOKEN" else c.IonosToken) ∧
      r.cfg.IonosUsername =
        (if c.IonosUsername = "" then w.getenv "IONOS_USERNAME" else c.IonosUsername) ∧
      r.cfg.IonosPassword =
        (if c.IonosPassword = "" then w.getenv "IONOS_PASSWORD" else c.IonosPassword) ∧
      r.errors.count authMsg + r.errors.count userPassMsg ≤ 1 ∧
      (authMsg ∈ r.errors ↔
        r.cfg.IonosToken = "" ∧ r.cfg.IonosUsername = "" ∧ r.cfg.IonosPassword = "") ∧
      (userPassMsg ∈ r.errors ↔
        r.cfg.IonosToken = "" ∧ (r.cfg.IonosUsername = "" ∨ r.cfg.IonosPassword = "") ∧
        ¬ (r.cfg.IonosToken = "" ∧ r.cfg.IonosUsername = "" ∧ r.cfg.IonosPassword = "")) ∧
      (r.cfg.IonosToken ≠ "" → authMsg ∉ r.errors ∧ userPassMsg ∉ r.errors) := by
  refine ⟨_, PrepareDecoded_returns w c hr, ?_⟩
  rw [returnedOf_errors, returnedOf_cfg]
  have ca : (validationErrors w c).count authMsg = _ :=
    count_validationErrors_auth w c authMsg
      (fun h => (hown _ (List.mem_append.mpr (Or.inl h))).1 rfl)
      (fun h => (hown _ (List.mem_append.mpr (Or.inr h))).1 rfl)
      (by decide) (by decide) (by decide)
  have cu : (validationErrors w c).count userPassMsg = _ :=
    count_validationErrors_auth w c userPassMsg
      (fun h => (hown _ (List.mem_append.mpr (Or.inl h))).2 rfl)
      (fun h => (hown _ (List.mem_append.mpr (Or.inr h))).2 rfl)
      (by decide) (by decide) (by decide)
  have ma : authMsg ∈ validationErrors w c ↔
      authMsg ∈ authErrors (resolved w c).IonosToken (resolved w c).IonosUsername
        (resolved w c).IonosPassword := by
    rw [← List.count_pos_iff, ← List.count_pos_iff, ca]
  have mu : userPassMsg ∈ validationErrors w c ↔
      userPassMsg ∈ authErrors (resolved w c).IonosToken (resolved w c).IonosUsername
        (resolved w c).IonosPassword := by
    rw [← List.count_pos_iff, ← List.count_pos_iff, cu]
  refine ⟨rfl, rfl, rfl, ?_, ?_, ?_, ?_⟩
  · rw [ca, cu]
    exact count_authErrors_le _ _ _
  · rw [ma, authMsg_mem_authErrors]
  · rw [mu, userPassMsg_mem_authErrors]
  · intro ht
    rw [ma, mu, authMsg_mem_authErrors, userPassMsg_mem_authErrors]
    exact ⟨fun h => ht h.1, fun h => ht h.1⟩

/-- C9 at sample inputs: without any credential the empty configuration gets
the authentication-required error and not the username/password one. -/
theorem prepare_auth_errors_witness :
    (emptyConfig.SnapshotName = "" → ∃ d, strictWorld.render snapshotTemplate = .ok d) ∧
    (∀ e ∈ commErrsFirst strictWorld emptyConfig ++ commErrsSecond strictWorld emptyConfig,
      e ≠ authMsg ∧ e ≠ userPassMsg) ∧
    ∃ r, PrepareDecoded strictWorld emptyConfig = .returned r ∧
      authMsg ∈ r.errors ∧ userPassMsg ∉ r.errors := by
  have hr : emptyConfig.SnapshotName = "" →
      ∃ d, strictWorld.render snapshotTemplate = .ok d := fun _ => ⟨_, rfl⟩
  have hown : ∀ e ∈ commErrsFirst strictWorld emptyConfig ++
      commErrsSecond strictWorld emptyConfig, e ≠ authMsg ∧ e ≠ userPassMsg := by decide
  obtain ⟨r, h, ht, hu, hp, _, ha, hup, _⟩ :=
    prepare_auth_errors strictWorld emptyConfig hr hown
  have ht0 : r.cfg.IonosToken = "" := ht.trans (by decide)
  have hu0 : r.cfg.IonosUsername = "" := hu.trans (by decide)
  have hp0 : r.cfg.IonosPassword = "" := hp.trans (by decide)
  exact ⟨hr, hown, r, h, ha.mpr ⟨ht0, hu0, hp0⟩,
    fun hm => (hup.mp hm).2.2 ⟨ht0, hu0, hp0⟩⟩

/-- C10. For a decoded configuration whose default snapshot name can be
rendered, `Prepare` returns; when `ServerType` is "CUBE" it leaves `DiskType` =
"DAS", `Ram` = 0 and `Cores` = 0 whatever the decoded values and whatever errors
are reported, and for any other `ServerType` the override step changes nothing,
so the three fields keep their decoded-or-default values. -/
theorem prepare_cube_override (w : World) (c : Config)
    (hr : c.SnapshotName = "" → ∃ d, w.render snapshotTemplate = .ok d) :
    (∃ r, PrepareDecoded w c = .returned r ∧
      (c.ServerType = "CUBE" →
        r.cfg.DiskType = "DAS" ∧ r.cfg.Ram = 0 ∧ r.cfg.Cores = 0) ∧
      (c.ServerType ≠ "CUBE" →
        r.cfg.DiskType = (if c.DiskType = "" then "HDD" else c.DiskType) ∧
        r.cfg.Ram = (if c.Ram = 0 then 2048 else c.Ram) ∧
        r.cfg.Cores = (if c.Cores = 0 then 4 else c.Cores))) ∧
    (∀ s : State, s.c.ServerType ≠ "CUBE" → cubeOverride s = s) := by
  refine ⟨⟨_, PrepareDecoded_returns w c hr, ?_, ?_⟩, ?_⟩
  · intro hc
    rw [returnedOf_cfg]
    refine ⟨?_, ?_, ?_⟩
    · show (if c.ServerType = "CUBE" then "DAS"
        else if c.DiskType = "" then "HDD" else c.DiskType) = _
      rw [if_pos hc]
    · show (if c.ServerType = "CUBE" then 0 else if c.Ram = 0 then 2048 else c.Ram) = _
      rw [if_pos hc]
    · show (if c.ServerType = "CUBE" then 0 else if c.Cores = 0 then 4 else c.Cores) = _
      rw [if_pos hc]
  · intro hc
    rw [returnedOf_cfg]
    refine ⟨?_, ?_, ?_⟩
    · show (if c.ServerType = "CUBE" then "DAS"
        else if c.DiskType = "" then "HDD" else c.DiskType) = _
      rw [if_neg hc]
    · show (if c.ServerType = "CUBE" then 0 else if c.Ram = 0 then 2048 else c.Ram) = _
      rw [if_neg hc]
    · show (if c.ServerType = "CUBE" then 0 else if c.Cores = 0 then 4 else c.Cores) = _
      rw [if_neg hc]
  · intro s hs
    unfold cubeOverride
    rw [if_neg hs]

/-- C10 at a sample input: a CUBE configuration with disk type "SSD", 4096 MB
and 8 cores but no cube template is rejected with the cube_template error and
is left with "DAS", 0 and 0. -/
theorem prepare_cube_override_witness :
    (cubeNoTemplate.SnapshotName = "" →
      ∃ d, tokenWorld.render snapshotTemplate = .ok d) ∧
    cubeNoTemplate.DiskType = "SSD" ∧ cubeNoTemplate.Ram = 4096 ∧
    cubeNoTemplate.Cores = 8 ∧
    ∃ r, PrepareDecoded tokenWorld cubeNoTemplate = .returned r ∧
      cubeMsg ∈ r.errors ∧
      r.cfg.DiskType = "DAS" ∧ r.cfg.Ram = 0 ∧ r.cfg.Cores = 0 := by
  have hr : cubeNoTemplate.SnapshotName = "" →
      ∃ d, tokenWorld.render snapshotTemplate = .ok d := fun _ => ⟨_, rfl⟩
  obtain ⟨⟨r, h, hcube, _⟩, _⟩ := prepare_cube_override tokenWorld cubeNoTemplate hr
  have hrun : PrepareDecoded tokenWorld cubeNoTemplate =
      .returned (returnedOf (resolved tokenWorld cubeNoTemplate)
        (validationErrors tokenWorld cubeNoTemplate)) := by decide
  have hrr : r = returnedOf (resolved tokenWorld cubeNoTemplate)
      (validationErrors tokenWorld cubeNoTemplate) := by
    rw [h] at hrun
    exact Outcome.returned.inj hrun
  have hmem : cubeMsg ∈ r.errors := by rw [hrr]; decide
  exact ⟨hr, by decide, by decide, by decide, r, h, hmem, hcube (by decide)⟩

/-- C11. For a decoded configuration whose default snapshot name can be
rendered, `Prepare` returns, and the returned error list is exactly the errors of
the first communicator call, then the ssh-credential error if applicable, then
the errors of the second communicator call, then the image error, the
cube_template error and the single authentication error (for the credentials
after the environment fallback), each if applicable; hence, when both
communicator calls return the same errors, each of them occurs at least twice in
the list (twice as often as in the communicator's own list). -/
theorem prepare_error_list_shape (w : World) (c : Config)
    (hr : c.SnapshotName = "" → ∃ d, w.render snapshotTemplate = .ok d) :
    ∃ r, PrepareDecoded w c = .returned r ∧
      r.errors =
        commErrsFirst w c
          ++ (if (commAfterFirst w c).SSHPassword = "" ∧
                (commAfterFirst w c).SSHPrivateKeyFile = "" then [sshMsg] else [])
          ++ commErrsSecond w c
          ++ (if c.Image = "" then [imageMsg] else [])
          ++ (if c.ServerType = "CUBE" ∧ c.CubeTemplate = "" then [cubeMsg] else [])
          ++ (if r.cfg.IonosToken = "" ∧ r.cfg.IonosUsername = "" ∧
                r.cfg.IonosPassword = "" then [authMsg]
              else if (r.cfg.IonosUsername = "" ∨ r.cfg.IonosPassword = "") ∧
                r.cfg.IonosToken = "" then [userPassMsg]
              else []) ∧
      r.cfg.IonosToken =
        (if c.IonosToken = "" then w.getenv "IONOS_TOKEN" else c.IonosToken) ∧
      r.cfg.IonosUsername =
        (if c.IonosUsername = "" then w.getenv "IONOS_USERNAME" else c.IonosUsername) ∧
      r.cfg.IonosPassword =
        (if c.IonosPassword = "" then w.getenv "IONOS_PASSWORD" else c.IonosPassword) ∧
      (commErrsFirst w c = commErrsSecond w c →
        ∀ e ∈ commErrsFirst w c,
          2 ≤ r.errors.count e ∧ 2 * (commErrsFirst w c).count e ≤ r.errors.count e) := by
  refine ⟨_, PrepareDecoded_returns w c hr, ?_, ?_⟩
  · rw [returnedOf_errors, returnedOf_cfg]
    rfl
  · rw [returnedOf_errors, returnedOf_cfg]
    refine ⟨rfl, rfl, rfl, ?_⟩
    intro hsame e he
    have hpos : 0 < (commErrsFirst w c).count e := List.count_pos_iff.mpr he
    have hle : 2 * (commErrsFirst w c).count e ≤ (validationErrors w c).count e := by
      unfold validationErrors
      rw [← hsame]
      simp only [List.count_append]
      omega
    exact ⟨by omega, hle⟩

/-- C11 at a sample input: the communicator's error comes first, then the ssh
error, then the communicator's error again, then the image error and the
authentication error. -/
theorem prepare_error_list_shape_witness :
    (emptyConfig.SnapshotName = "" → ∃ d, strictWorld.render snapshotTemplate = .ok d) ∧
    commErrsFirst strictWorld emptyConfig = commErrsSecond strictWorld emptyConfig ∧
    ∃ r, PrepareDecoded strictWorld emptyConfig = .returned r ∧
      r.errors = ["An ssh_username must be specified", sshMsg,
        "An ssh_username must be specified", imageMsg, authMsg] ∧
      2 ≤ r.errors.count "An ssh_username must be specified" := by
  have hr : emptyConfig.SnapshotName = "" →
      ∃ d, strictWorld.render snapshotTemplate = .ok d := fun _ => ⟨_, rfl⟩
  obtain ⟨r, h, hshape, ht, hu, hp, htwice⟩ :=
    prepare_error_list_shape strictWorld emptyConfig hr
  have ht0 : r.cfg.IonosToken = "" := ht.trans (by decide)
  have hu0 : r.cfg.IonosUsername = "" := hu.trans (by decide)
  have hp0 : r.cfg.IonosPassword = "" := hp.trans (by decide)
  rw [ht0, hu0, hp0] at hshape
  exact ⟨hr, by decide, r, h, hshape.trans (by decide),
    (htwice (by decide) _ (by decide)).1⟩

theorem fallback_idem (v d : String) :
    (if (if v = "" then d else v) = "" then d else (if v = "" then d else v)) =
      (if v = "" then d else v) := by
  by_cases h : v = ""
  · by_cases hd : d = "" <;> simp [h, hd]
  · simp [h]

theorem snapshotNameOf_resolved (w : World) (c : Config) :
    snapshotNameOf w (resolved w c) = snapshotNameOf w c := by
  show snapshotNameOf w { c with SnapshotName := snapshotNameOf w c } = snapshotNameOf w c
  unfold snapshotNameOf
  by_cases h : c.SnapshotName = ""
  · simp only [h, if_true]
    cases hd : w.render snapshotTemplate with
    | error e => simp
    | ok d => by_cases h2 : d = "" <;> simp [h2]
  · simp [h]

theorem commPrepare_resolved (w : World) (c : Config)
    (hidem : ∀ k, w.commPrepare c.ctx (w.commPrepare c.ctx k).1 = w.commPrepare c.ctx k) :
    w.commPrepare c.ctx (commAfterSecond w c) = w.commPrepare c.ctx c.Comm := by
  unfold commAfterSecond commAfterFirst
  rw [hidem, hidem]

/-- With an idempotent communicator, resolving a resolved configuration changes
nothing. -/
theorem resolved_idem (w : World) (c : Config)
    (hidem : ∀ k, w.commPrepare c.ctx (w.commPrepare c.ctx k).1 = w.commPrepare c.ctx k) :
    resolved w (resolved w c) = resolved w c := by
  have hc := commPrepare_resolved w c hidem
  have hcomm : commAfterSecond w (resolved w c) = commAfterSecond w c := by
    show (w.commPrepare c.ctx (w.commPrepare c.ctx (commAfterSecond w c)).1).1 = _
    rw [hc]
    rfl
  have hsnap := snapshotNameOf_resolved w c
  have hsize : (if (if c.DiskSize.isZero then Float32.fifty else c.DiskSize).isZero
      then Float32.fifty else (if c.DiskSize.isZero then Float32.fifty else c.DiskSize)) =
      (if c.DiskSize.isZero then Float32.fifty else c.DiskSize) := by
    by_cases h : c.DiskSize.isZero = true
    · simp [h]
    · simp [h]
  unfold resolved at hcomm hsnap ⊢
  simp only [Config.mk.injEq, hcomm, hsnap, hsize, fallback_idem, true_and, and_true]
  by_cases hcube : c.ServerType = "CUBE"
  · simp [hcube]
  · simp only [hcube, if_false, fallback_idem, true_and]
    constructor
    · by_cases h : c.Cores = 0 <;> simp [h]
    · by_cases h : c.Ram = 0 <;> simp [h]

/-- With an idempotent communicator, a resolved configuration collects the same
errors as the configuration it came from. -/
theorem validationErrors_resolved (w : World) (c : Config)
    (hidem : ∀ k, w.commPrepare c.ctx (w.commPrepare c.ctx k).1 = w.commPrepare c.ctx k) :
    validationErrors w (resolved w c) = validationErrors w c := by
  have hc := commPrepare_resolved w c hidem
  have h1 : commErrsFirst w (resolved w c) = commErrsFirst w c := by
    show (w.commPrepare c.ctx (commAfterSecond w c)).2.elems = _
    rw [hc]
    rfl
  have h2 : commAfterFirst w (resolved w c) = commAfterFirst w c := by
    show (w.commPrepare c.ctx (commAfterSecond w c)).1 = _
    rw [hc]
    rfl
  have h3 : commErrsSecond w (resolved w c) = commErrsSecond w c := by
    show (w.commPrepare c.ctx (commAfterFirst w (resolved w c))).2.elems = _
    rw [h2]
    rfl
  have h4 : (resolved w c).Image = c.Image := rfl
  have h5 : (resolved w c).ServerType = c.ServerType := rfl
  have h6 : (resolved w c).CubeTemplate = c.CubeTemplate := rfl
  unfold validationErrors
  rw [resolved_idem w c hidem, h1, h2, h3, h4, h5, h6]

/-- C12. For a fixed world whose communicator `Prepare` is idempotent (a second
call on the configuration it left returns the same configuration and errors)
and a decoded configuration whose default snapshot name can be rendered,
`Prepare` returns, and run again on the configuration it left it returns the
very same result: same configuration, same error, same error list. For
`ServerType` "CUBE" the second run starts from `Cores` = 0 and `Ram` = 0, has
4 and 2048 after config.go:97-103 and ends with 0 and 0 again. -/
theorem prepare_idempotent (w : World) (c : Config)
    (hr : c.SnapshotName = "" → ∃ d, w.render snapshotTemplate = .ok d)
    (hidem : ∀ k, w.commPrepare c.ctx (w.commPrepare c.ctx k).1 = w.commPrepare c.ctx k) :
    ∃ r, PrepareDecoded w c = .returned r ∧
      PrepareDecoded w r.cfg = .returned r ∧
      (∀ r2, PrepareDecoded w r.cfg = .returned r2 →
        r2.cfg = r.cfg ∧ r2.errors = r.errors) ∧
      (c.ServerType = "CUBE" →
        ∃ s0, defaultSnapshotName w (checkSSH (commFirst w { c := r.cfg, errs := none }))
            = .ok s0 ∧
          s0.c.Cores = 0 ∧ s0.c.Ram = 0 ∧
          (defaultRam (defaultCores (defaultApiUrl
            (envToken w (envPassword w (envUsername w s0)))))).c.Cores = 4 ∧
          (defaultRam (defaultCores (defaultApiUrl
            (envToken w (envPassword w (envUsername w s0)))))).c.Ram = 2048 ∧
          r.cfg.Cores = 0 ∧ r.cfg.Ram = 0) := by
  have hr2 : (resolved w c).SnapshotName = "" → ∃ d, w.render snapshotTemplate = .ok d := by
    intro h
    by_cases h0 : c.SnapshotName = ""
    · exact hr h0
    · exfalso
      have : snapshotNameOf w c = "" := h
      unfold snapshotNameOf at this
      rw [if_neg h0] at this
      exact h0 this
  have hagain : PrepareDecoded w (resolved w c) =
      .returned (returnedOf (resolved w c) (validationErrors w c)) := by
    rw [PrepareDecoded_returns w (resolved w c) hr2, resolved_idem w c hidem,
      validationErrors_resolved w c hidem]
  refine ⟨_, PrepareDecoded_returns w c hr, ?_, ?_, ?_⟩
  · rw [returnedOf_cfg]
    exact hagain
  · intro r2 h2
    rw [returnedOf_cfg, hagain] at h2
    rw [← Outcome.returned.inj h2]
    exact ⟨rfl, rfl⟩
  · intro hcube
    rw [returnedOf_cfg]
    have hs : (checkSSH (commFirst w { c := resolved w c, errs := none })).c.SnapshotName = ""
        → ∃ d, w.render snapshotTemplate = .ok d := by
      intro h
      rw [checkSSH_c, commFirst_c] at h
      exact hr2 h
    refine ⟨_, defaultSnapshotName_ok w _ hs, ?_⟩
    simp only [defaultRam_c, defaultCores_c, defaultApiUrl_c, envToken_c, envPassword_c,
      envUsername_c, checkSSH_c, commFirst_c]
    unfold resolved
    simp [hcube]

/-- C12 at a sample input: the accepted CUBE configuration, prepared a second
time, gives the same result with `Cores` = 0 and `Ram` = 0. -/
theorem prepare_idempotent_witness :
    (cubeConfig.SnapshotName = "" → ∃ d, tokenWorld.render snapshotTemplate = .ok d) ∧
    (∀ k, tokenWorld.commPrepare cubeConfig.ctx (tokenWorld.commPrepare cubeConfig.ctx k).1
      = tokenWorld.commPrepare cubeConfig.ctx k) ∧
    ∃ r, PrepareDecoded tokenWorld cubeConfig = .returned r ∧
      PrepareDecoded tokenWorld r.cfg = .returned r ∧
      r.cfg.Cores = 0 ∧ r.cfg.Ram = 0 := by
  have hr : cubeConfig.SnapshotName = "" →
      ∃ d, tokenWorld.render snapshotTemplate = .ok d := fun _ => ⟨_, rfl⟩
  have hidem : ∀ k, tokenWorld.commPrepare cubeConfig.ctx
      (tokenWorld.commPrepare cubeConfig.ctx k).1 =
      tokenWorld.commPrepare cubeConfig.ctx k := fun _ => rfl
  obtain ⟨r, h, h2, _, hcube⟩ := prepare_idempotent tokenWorld cubeConfig hr hidem
  obtain ⟨_, _, _, _, _, _, hc, hram⟩ := hcube (by decide)
  exact ⟨hr, hidem, r, h, h2, hc, hram⟩

theorem returnedOf_secrets (cfg : Config) (errs : List String) :
    (returnedOf cfg errs).secrets =
      if errs = [] then [cfg.IonosUsername, cfg.IonosToken] else [] := by
  unfold returnedOf; split <;> rfl

/-- C13. `Prepare` hands values to the log secret filter only on success. If
decoding fails it returns the decode error and registers nothing; if validation
fails it registers nothing; if it succeeds (the default snapshot name being
renderable) the registered values are exactly the resolved `IonosUsername` and
then the resolved `IonosToken`. The resolved `IonosPassword` is not among them
unless it is the same text as one of the two, and the registered values do not
depend on it: with any other configured password and any other value of
`IONOS_PASSWORD`, a successful run registers the same values. -/
theorem prepare_secret_registration (w : World) (c0 c : Config) (raws : List Raw)
    (derr : Option String) (hd : w.decode c0 raws = (c, derr))
    (hr : derr = none → c.SnapshotName = "" → ∃ d, w.render snapshotTemplate = .ok d) :
    ∃ r, Prepare w c0 raws = .returned r ∧
      (∀ msg, derr = some msg → r.err = some (.decode msg) ∧ r.secrets = []) ∧
      (r.err ≠ none → r.secrets = []) ∧
      (r.err = none →
        r.secrets = [r.cfg.IonosUsername, r.cfg.IonosToken] ∧
        r.cfg.IonosUsername =
          (if c.IonosUsername = "" then w.getenv "IONOS_USERNAME" else c.IonosUsername) ∧
        r.cfg.IonosToken =
          (if c.IonosToken = "" then w.getenv "IONOS_TOKEN" else c.IonosToken) ∧
        r.cfg.IonosPassword =
          (if c.IonosPassword = "" then w.getenv "IONOS_PASSWORD" else c.IonosPassword) ∧
        (r.cfg.IonosPassword ≠ r.cfg.IonosUsername →
          r.cfg.IonosPassword ≠ r.cfg.IonosToken → r.cfg.IonosPassword ∉ r.secrets) ∧
        ∀ (p v : String), ∃ r2,
          PrepareDecoded
            { w with getenv := fun k => if k = "IONOS_PASSWORD" then v else w.getenv k }
            { c with IonosPassword := p } = .returned r2 ∧
          (r2.err = none → r2.secrets = r.secrets)) := by
  cases derr with
  | some msg =>
    refine ⟨_, Prepare_of_decode_error w c0 c raws msg hd, ?_, ?_, ?_⟩
    · intro m hm
      cases hm
      exact ⟨rfl, rfl⟩
    · intro _
      rfl
    · intro h
      simp at h
  | none =>
    have hr0 := hr rfl
    rw [Prepare_of_decoded w c0 c raws hd]
    refine ⟨_, PrepareDecoded_returns w c hr0, ?_, ?_, ?_⟩
    · intro m hm
      cases hm
    · intro herr
      rw [returnedOf_secrets]
      have hne : validationErrors w c ≠ [] :=
        fun h => herr ((returnedOf_err_eq_none _ _).mpr h)
      rw [if_neg hne]
    · intro hnil
      have hnil0 := (returnedOf_err_eq_none _ _).mp hnil
      rw [returnedOf_secrets, if_pos hnil0, returnedOf_cfg]
      refine ⟨rfl, rfl, rfl, rfl, ?_, ?_⟩
      · intro h1 h2 hmem
        simp only [List.mem_cons, List.mem_singleton, List.not_mem_nil, or_false] at hmem
        rcases hmem with h | h
        · exact h1 h
        · exact h2 h
      · intro p v
        refine ⟨_, PrepareDecoded_returns _ { c with IonosPassword := p } hr0, ?_⟩
        intro hnil2
        have hnil3 := (returnedOf_err_eq_none _ _).mp hnil2
        rw [returnedOf_secrets, if_pos hnil3]
        show [if c.IonosUsername = "" then
                (if "IONOS_USERNAME" = "IONOS_PASSWORD" then v else w.getenv "IONOS_USERNAME")
              else c.IonosUsername,
              if c.IonosToken = "" then
                (if "IONOS_TOKEN" = "IONOS_PASSWORD" then v else w.getenv "IONOS_TOKEN")
              else c.IonosToken] =
          [if c.IonosUsername = "" then w.getenv "IONOS_USERNAME" else c.IonosUsername,
           if c.IonosToken = "" then w.getenv "IONOS_TOKEN" else c.IonosToken]
        have e1 : ¬ ("IONOS_USERNAME" = "IONOS_PASSWORD") := by decide
        have e2 : ¬ ("IONOS_TOKEN" = "IONOS_PASSWORD") := by decide
        rw [if_neg e1, if_neg e2]

/-- C13 at sample inputs: an accepted configuration with user name "alice" and
password "wonderland" registers "alice" and the token of the environment, and
not the password; with a decoder that fails nothing is registered. -/
theorem prepare_secret_registration_witness :
    tokenWorld.decode aliceConfig [] = (aliceConfig, none) ∧
    (aliceConfig.SnapshotName = "" → ∃ d, tokenWorld.render snapshotTemplate = .ok d) ∧
    (∃ r, Prepare tokenWorld aliceConfig [] = .returned r ∧
      r.err = none ∧ r.secrets = ["alice", "t0k3n"] ∧ "wonderland" ∉ r.secrets) ∧
    rejectingWorld.decode aliceConfig [] = (aliceConfig, some "unknown configuration key") ∧
    (∃ r, Prepare rejectingWorld aliceConfig [] = .returned r ∧
      r.err = some (.decode "unknown configuration key") ∧ r.secrets = []) := by
  have hd : tokenWorld.decode aliceConfig [] = (aliceConfig, none) := rfl
  have hr : aliceConfig.SnapshotName = "" →
      ∃ d, tokenWorld.render snapshotTemplate = .ok d := fun _ => ⟨_, rfl⟩
  have hd2 : rejectingWorld.decode aliceConfig [] =
      (aliceConfig, some "unknown configuration key") := rfl
  obtain ⟨r, h, _, _, hok⟩ :=
    prepare_secret_registration tokenWorld aliceConfig aliceConfig [] none hd (fun _ => hr)
  obtain ⟨r2, h2, hfail, _, _⟩ :=
    prepare_secret_registration rejectingWorld aliceConfig aliceConfig []
      (some "unknown configuration key") hd2 (fun hn => absurd hn (by decide))
  have hrun : Prepare tokenWorld aliceConfig [] =
      .returned (returnedOf (resolved tokenWorld aliceConfig)
        (validationErrors tokenWorld aliceConfig)) := by decide
  have hrr : r = returnedOf (resolved tokenWorld aliceConfig)
      (validationErrors tokenWorld aliceConfig) := by
    rw [h] at hrun
    exact Outcome.returned.inj hrun
  have hnil : r.err = none := by rw [hrr]; decide
  obtain ⟨hsec, hu, ht, hp, hnot, _⟩ := hok hnil
  have hu0 : r.cfg.IonosUsername = "alice" := hu.trans (by decide)
  have ht0 : r.cfg.IonosToken = "t0k3n" := ht.trans (by decide)
  have hp0 : r.cfg.IonosPassword = "wonderland" := hp.trans (by decide)
  have hsec0 : r.secrets = ["alice", "t0k3n"] := by rw [hsec, hu0, ht0]
  have hnot0 : "wonderland" ∉ r.secrets := by
    rw [← hp0]
    exact hnot (by rw [hp0, hu0]; decide) (by rw [hp0, ht0]; decide)
  exact ⟨hd, hr, ⟨r, h, hnil, hsec0, hnot0⟩, hd2, ⟨r2, h2, hfail _ rfl⟩⟩

end Ionoscloud
